import Mathlib

/-
Shallow embedding of the snippet-generator backend
(src/db/tables.ts and the action handlers in src/unnamed/part_000).

Rows of the two astro:db tables become Lean structures; `Date` columns
become `Nat` timestamps; `crypto.randomUUID()` and `new Date()` become
explicit `freshId` / `now` parameters; the drizzle-style select/update
calls become pure list operations on an explicit `Store`.  Each action
handler is a function returning `Except ActionError (result × Store)`,
mirroring astro's thrown `ActionError`s; no handler in the source writes
to the store before a possible throw, so the `Except` short-circuiting
is faithful to the original write order.
-/

namespace SnippetGen

/-- A row of the `SnippetCollections` table (src/db/tables.ts). -/
structure Collection where
  id : String
  userId : String
  name : String
  description : Option String
  icon : Option String
  isDefault : Bool
  createdAt : Nat
  updatedAt : Nat
deriving DecidableEq, Repr

/-- A row of the `Snippets` table (src/db/tables.ts). -/
structure Snippet where
  id : String
  collectionId : String
  userId : String
  title : String
  language : Option String
  content : String
  description : Option String
  tags : Option String
  isFavorite : Bool
  isArchived : Bool
  createdAt : Nat
  updatedAt : Nat
deriving DecidableEq, Repr

/-- The persistence store: the two tables, as lists of rows in insertion order. -/
structure Store where
  collections : List Collection
  snippets : List Snippet
deriving DecidableEq, Repr

/-- The two `ActionError` codes used by the handlers. -/
inductive ErrorCode where
  | UNAUTHORIZED
  | NOT_FOUND
deriving DecidableEq, Repr

/-- The structured error thrown by handlers (`ActionError` in the source). -/
structure ActionError where
  code : ErrorCode
  message : String
deriving DecidableEq, Repr

deriving instance DecidableEq for Except

/-- `requireUser`: extracts the authenticated user id from the ambient context,
    throwing `UNAUTHORIZED` when none is present. -/
def requireUser (ctxUser : Option String) : Except ActionError String :=
  match ctxUser with
  | none => .error ⟨.UNAUTHORIZED, "You must be signed in to perform this action."⟩
  | some u => .ok u

/-- `ensureCollectionOwned`: selects the first Collection row matching
    `id = collectionId AND userId = userId`; throws `NOT_FOUND` when there is none. -/
def ensureCollectionOwned (collectionId userId : String) (s : Store) :
    Except ActionError Collection :=
  match (s.collections.filter fun c => c.id == collectionId && c.userId == userId).head? with
  | some collection => .ok collection
  | none => .error ⟨.NOT_FOUND, "Collection not found."⟩

/-- `ensureSnippetOwned`: same contract for Snippet rows. -/
def ensureSnippetOwned (snippetId userId : String) (s : Store) :
    Except ActionError Snippet :=
  match (s.snippets.filter fun sn => sn.id == snippetId && sn.userId == userId).head? with
  | some snippet => .ok snippet
  | none => .error ⟨.NOT_FOUND, "Snippet not found."⟩

/-- Input shape of `createSnippetCollection` (after zod parsing: `optional()`
    fields are `Option`s). -/
structure CreateCollectionInput where
  name : String
  description : Option String
  icon : Option String
  isDefault : Option Bool
deriving DecidableEq, Repr

/-- The zod validation of `createSnippetCollection`'s input:
    `name: z.string().min(1)`, the rest unconstrained. -/
def CreateCollectionInput.Valid (i : CreateCollectionInput) : Prop :=
  1 ≤ i.name.length

instance (i : CreateCollectionInput) : Decidable i.Valid := by
  unfold CreateCollectionInput.Valid; infer_instance

/-- The bulk update `set({ isDefault: false, updatedAt: now })
    .where(eq(SnippetCollections.userId, userId))`. -/
def clearDefaults (userId : String) (now : Nat) (cs : List Collection) : List Collection :=
  cs.map fun c =>
    if c.userId == userId then { c with isDefault := false, updatedAt := now } else c

/-- Handler of `createSnippetCollection`. -/
def createSnippetCollection (input : CreateCollectionInput) (ctxUser : Option String)
    (now : Nat) (freshId : String) (s : Store) :
    Except ActionError (Collection × Store) :=
  match requireUser ctxUser with
  | .error e => .error e
  | .ok user =>
    let s₁ : Store :=
      if input.isDefault == some true then
        { s with collections := clearDefaults user now s.collections }
      else s
    let collection : Collection :=
      { id := freshId
        userId := user
        name := input.name
        description := input.description
        icon := input.icon
        isDefault := input.isDefault.getD false
        createdAt := now
        updatedAt := now }
    .ok (collection, { s₁ with collections := s₁.collections ++ [collection] })

/-- Input shape of `updateSnippetCollection`. -/
structure UpdateCollectionInput where
  id : String
  name : Option String
  description : Option String
  icon : Option String
  isDefault : Option Bool
deriving DecidableEq, Repr

/-- `z.string().min(1).optional()`: when the field is present it must be
    non-empty; when absent there is no constraint. -/
def optMinLen1 : Option String → Prop
  | some n => 1 ≤ n.length
  | none => True

instance : (o : Option String) → Decidable (optMinLen1 o)
  | some n => inferInstanceAs (Decidable (1 ≤ n.length))
  | none => .isTrue trivial

/-- The zod validation of `updateSnippetCollection`'s input:
    `id: z.string().min(1)`, `name: z.string().min(1).optional()`,
    the rest unconstrained. -/
def UpdateCollectionInput.Valid (i : UpdateCollectionInput) : Prop :=
  1 ≤ i.id.length ∧ optMinLen1 i.name

instance (i : UpdateCollectionInput) : Decidable i.Valid := by
  unfold UpdateCollectionInput.Valid; infer_instance

/-- The `updateData` object accumulated by `updateSnippetCollection`:
    `none` means the field is absent from the partial update. -/
structure CollectionUpdateData where
  updatedAt : Nat
  name : Option String
  description : Option String
  icon : Option String
  isDefault : Option Bool
deriving DecidableEq, Repr

/-- Applying a partial `updateData` to one Collection row
    (`db.update(SnippetCollections).set(updateData)` on a matching row). -/
def applyCollectionUpdate (u : CollectionUpdateData) (c : Collection) : Collection :=
  { c with
    updatedAt := u.updatedAt
    name := u.name.getD c.name
    description := match u.description with
      | some d => some d
      | none => c.description
    icon := match u.icon with
      | some v => some v
      | none => c.icon
    isDefault := u.isDefault.getD c.isDefault }

/-- Handler of `updateSnippetCollection`. -/
def updateSnippetCollection (input : UpdateCollectionInput) (ctxUser : Option String)
    (now : Nat) (s : Store) :
    Except ActionError (Option Collection × Store) :=
  match requireUser ctxUser with
  | .error e => .error e
  | .ok user =>
    match ensureCollectionOwned input.id user s with
    | .error e => .error e
    | .ok existing =>
      let updateData : CollectionUpdateData :=
        { updatedAt := now
          name := input.name
          description := input.description
          icon := input.icon
          isDefault := input.isDefault }
      let s₁ : Store :=
        if input.isDefault == some true then
          { s with collections := clearDefaults user now s.collections }
        else s
      let s₂ : Store :=
        { s₁ with collections := s₁.collections.map fun c =>
            if c.id == existing.id then applyCollectionUpdate updateData c else c }
      let collection := (s₂.collections.filter fun c => c.id == existing.id).head?
      .ok (collection, s₂)

/-- Input shape of `listMySnippetCollections` after zod defaults are applied. -/
structure ListCollectionsInput where
  page : Nat
  pageSize : Nat
deriving DecidableEq, Repr

/-- The zod validation of `listMySnippetCollections`'s input:
    `page` positive, `pageSize` positive and at most 100. -/
def ListCollectionsInput.Valid (i : ListCollectionsInput) : Prop :=
  1 ≤ i.page ∧ 1 ≤ i.pageSize ∧ i.pageSize ≤ 100

instance (i : ListCollectionsInput) : Decidable i.Valid := by
  unfold ListCollectionsInput.Valid; infer_instance

/-- The `{ items, total }` payload of the two list actions. -/
structure ListResult (α : Type) where
  items : List α
  total : Nat
deriving DecidableEq, Repr

/-- Stable insertion of one element into a list sorted descending by `key`. -/
def insertDescBy {α : Type} (key : α → Nat) (x : α) : List α → List α
  | [] => [x]
  | y :: ys => if key y < key x then x :: y :: ys else y :: insertDescBy key x ys

/-- Stable descending sort by a `Nat` key (models `orderBy(desc(column))`). -/
def sortByDescKey {α : Type} (key : α → Nat) : List α → List α
  | [] => []
  | x :: xs => insertDescBy key x (sortByDescKey key xs)

/-- Handler of `listMySnippetCollections`. -/
def listMySnippetCollections (input : ListCollectionsInput) (ctxUser : Option String)
    (s : Store) : Except ActionError (ListResult Collection × Store) :=
  match requireUser ctxUser with
  | .error e => .error e
  | .ok user =>
    let offset := (input.page - 1) * input.pageSize
    let items :=
      (((sortByDescKey Collection.createdAt
          (s.collections.filter fun c => c.userId == user)).drop offset).take input.pageSize)
    .ok ({ items := items, total := items.length }, s)

/-- Input shape of `createSnippet`. -/
structure CreateSnippetInput where
  collectionId : String
  title : String
  language : Option String
  content : String
  description : Option String
  tags : Option String
  isFavorite : Option Bool
deriving DecidableEq, Repr

/-- The zod validation of `createSnippet`'s input: `collectionId`, `title`
    and `content` all `min(1)`, the rest unconstrained. -/
def CreateSnippetInput.Valid (i : CreateSnippetInput) : Prop :=
  1 ≤ i.collectionId.length ∧ 1 ≤ i.title.length ∧ 1 ≤ i.content.length

instance (i : CreateSnippetInput) : Decidable i.Valid := by
  unfold CreateSnippetInput.Valid; infer_instance

/-- Handler of `createSnippet`. -/
def createSnippet (input : CreateSnippetInput) (ctxUser : Option String)
    (now : Nat) (freshId : String) (s : Store) :
    Except ActionError (Snippet × Store) :=
  match requireUser ctxUser with
  | .error e => .error e
  | .ok user =>
    match ensureCollectionOwned input.collectionId user s with
    | .error e => .error e
    | .ok _ =>
      let snippet : Snippet :=
        { id := freshId
          collectionId := input.collectionId
          userId := user
          title := input.title
          language := input.language
          content := input.content
          description := input.description
          tags := input.tags
          isFavorite := input.isFavorite.getD false
          isArchived := false
          createdAt := now
          updatedAt := now }
      .ok (snippet, { s with snippets := s.snippets ++ [snippet] })

/-- Input shape of `updateSnippet`.  Note `collectionId` is
    `z.string().optional()` with no `min(1)` in the source. -/
structure UpdateSnippetInput where
  id : String
  title : Option String
  language : Option String
  content : Option String
  description : Option String
  tags : Option String
  isFavorite : Option Bool
  isArchived : Option Bool
  collectionId : Option String
deriving DecidableEq, Repr

/-- The zod validation of `updateSnippet`'s input. -/
def UpdateSnippetInput.Valid (i : UpdateSnippetInput) : Prop :=
  1 ≤ i.id.length ∧ optMinLen1 i.title ∧ optMinLen1 i.content

instance (i : UpdateSnippetInput) : Decidable i.Valid := by
  unfold UpdateSnippetInput.Valid; infer_instance

/-- The `updateData` object accumulated by `updateSnippet`. -/
structure SnippetUpdateData where
  updatedAt : Nat
  title : Option String
  language : Option String
  content : Option String
  description : Option String
  tags : Option String
  isFavorite : Option Bool
  isArchived : Option Bool
  collectionId : Option String
deriving DecidableEq, Repr

/-- Applying a partial `updateData` to one Snippet row. -/
def applySnippetUpdate (u : SnippetUpdateData) (sn : Snippet) : Snippet :=
  { sn with
    updatedAt := u.updatedAt
    title := u.title.getD sn.title
    language := match u.language with
      | some v => some v
      | none => sn.language
    content := u.content.getD sn.content
    description := match u.description with
      | some v => some v
      | none => sn.description
    tags := match u.tags with
      | some v => some v
      | none => sn.tags
    isFavorite := u.isFavorite.getD sn.isFavorite
    isArchived := u.isArchived.getD sn.isArchived
    collectionId := u.collectionId.getD sn.collectionId }

/-- Handler of `updateSnippet`.  The new-collection ownership check runs
    before any write, exactly as in the source. -/
def updateSnippet (input : UpdateSnippetInput) (ctxUser : Option String)
    (now : Nat) (s : Store) :
    Except ActionError (Option Snippet × Store) :=
  match requireUser ctxUser with
  | .error e => .error e
  | .ok user =>
    match ensureSnippetOwned input.id user s with
    | .error e => .error e
    | .ok existing =>
      let updateData : SnippetUpdateData :=
        { updatedAt := now
          title := input.title
          language := input.language
          content := input.content
          description := input.description
          tags := input.tags
          isFavorite := input.isFavorite
          isArchived := input.isArchived
          collectionId := none }
      let checkedData : Except ActionError SnippetUpdateData :=
        match input.collectionId with
        | some cid =>
            if cid ≠ existing.collectionId then
              match ensureCollectionOwned cid user s with
              | .error e => .error e
              | .ok _ => .ok { updateData with collectionId := some cid }
            else
              .ok updateData
        | none => .ok updateData
      match checkedData with
      | .error e => .error e
      | .ok updateData =>
        let s₁ : Store :=
          { s with snippets := s.snippets.map fun sn =>
              if sn.id == existing.id then applySnippetUpdate updateData sn else sn }
        let snippet := (s₁.snippets.filter fun sn => sn.id == existing.id).head?
        .ok (snippet, s₁)

/-- Handler of `archiveSnippet`. -/
def archiveSnippet (inputId : String) (ctxUser : Option String)
    (now : Nat) (s : Store) :
    Except ActionError (String × Store) :=
  match requireUser ctxUser with
  | .error e => .error e
  | .ok user =>
    match ensureSnippetOwned inputId user s with
    | .error e => .error e
    | .ok existing =>
      let s₁ : Store :=
        { s with snippets := s.snippets.map fun sn =>
            if sn.id == existing.id then { sn with isArchived := true, updatedAt := now }
            else sn }
      .ok (existing.id, s₁)

/-- Input shape of `listSnippets` after zod defaults are applied.  Note
    `collectionId` is `z.string().optional()` with no `min(1)`. -/
structure ListSnippetsInput where
  collectionId : Option String
  includeArchived : Bool
  page : Nat
  pageSize : Nat
deriving DecidableEq, Repr

/-- The zod validation of `listSnippets`'s input: `page` positive,
    `pageSize` positive and at most 100; `collectionId` unconstrained. -/
def ListSnippetsInput.Valid (i : ListSnippetsInput) : Prop :=
  1 ≤ i.page ∧ 1 ≤ i.pageSize ∧ i.pageSize ≤ 100

instance (i : ListSnippetsInput) : Decidable i.Valid := by
  unfold ListSnippetsInput.Valid; infer_instance

/-- JavaScript truthiness of the `string | undefined` value
    `input.collectionId`: `undefined` and `""` are falsy. -/
def strTruthy : Option String → Bool
  | none => false
  | some str => !(str == "")

/-- Handler of `listSnippets`. -/
def listSnippets (input : ListSnippetsInput) (ctxUser : Option String)
    (s : Store) : Except ActionError (ListResult Snippet × Store) :=
  match requireUser ctxUser with
  | .error e => .error e
  | .ok user =>
    let collCheck : Except ActionError Unit :=
      if strTruthy input.collectionId then
        match ensureCollectionOwned (input.collectionId.getD "") user s with
        | .error e => .error e
        | .ok _ => .ok ()
      else
        .ok ()
    match collCheck with
    | .error e => .error e
    | .ok _ =>
      let matchesFilters := fun (sn : Snippet) =>
        sn.userId == user &&
        (if strTruthy input.collectionId then sn.collectionId == input.collectionId.getD ""
         else true) &&
        (if !input.includeArchived then sn.isArchived == false else true)
      let offset := (input.page - 1) * input.pageSize
      let items :=
        (((sortByDescKey Snippet.updatedAt (s.snippets.filter matchesFilters)).drop offset).take
          input.pageSize)
      .ok ({ items := items, total := items.length }, s)

/-- Handler of `getSnippet`. -/
def getSnippet (inputId : String) (ctxUser : Option String) (s : Store) :
    Except ActionError (Snippet × Store) :=
  match requireUser ctxUser with
  | .error e => .error e
  | .ok user =>
    match ensureSnippetOwned inputId user s with
    | .error e => .error e
    | .ok snippet => .ok (snippet, s)

/-- One invocation of any of the eight exposed actions, with its parsed input. -/
inductive Action where
  | createCollectionAct (input : CreateCollectionInput)
  | updateCollectionAct (input : UpdateCollectionInput)
  | listCollectionsAct (input : ListCollectionsInput)
  | createSnippetAct (input : CreateSnippetInput)
  | updateSnippetAct (input : UpdateSnippetInput)
  | archiveSnippetAct (inputId : String)
  | listSnippetsAct (input : ListSnippetsInput)
  | getSnippetAct (inputId : String)
deriving DecidableEq, Repr

/-- The store after running one action: the handler's post-state on success,
    the untouched store on a thrown error (no handler in the source writes
    before a throw). -/
def runAction (a : Action) (ctxUser : Option String) (now : Nat) (freshId : String)
    (s : Store) : Store :=
  match a with
  | .createCollectionAct i =>
      match createSnippetCollection i ctxUser now freshId s with
      | .ok (_, s') => s'
      | .error _ => s
  | .updateCollectionAct i =>
      match updateSnippetCollection i ctxUser now s with
      | .ok (_, s') => s'
      | .error _ => s
  | .listCollectionsAct i =>
      match listMySnippetCollections i ctxUser s with
      | .ok (_, s') => s'
      | .error _ => s
  | .createSnippetAct i =>
      match createSnippet i ctxUser now freshId s with
      | .ok (_, s') => s'
      | .error _ => s
  | .updateSnippetAct i =>
      match updateSnippet i ctxUser now s with
      | .ok (_, s') => s'
      | .error _ => s
  | .archiveSnippetAct i =>
      match archiveSnippet i ctxUser now s with
      | .ok (_, s') => s'
      | .error _ => s
  | .listSnippetsAct i =>
      match listSnippets i ctxUser s with
      | .ok (_, s') => s'
      | .error _ => s
  | .getSnippetAct i =>
      match getSnippet i ctxUser s with
      | .ok (_, s') => s'
      | .error _ => s

/-- Number of Collection rows of `userId` flagged as default. -/
def defaultCount (userId : String) (cs : List Collection) : Nat :=
  (cs.filter fun c => c.userId == userId && c.isDefault).length

end SnippetGen

namespace SnippetGen

/-! Helper lemmas about the embedded store operations. -/

/-- The head of a list, when present, is a member. -/
lemma mem_of_head?_eq_some {α : Type} {l : List α} {a : α} (h : l.head? = some a) :
    a ∈ l := by
  cases l with
  | nil => simp at h
  | cons x xs =>
    simp only [List.head?, Option.some.injEq] at h
    subst h
    exact List.mem_cons_self _ _

/-- What a successful `ensureCollectionOwned` guarantees about its result. -/
lemma ensureCollectionOwned_ok {cid uid : String} {s : Store} {c : Collection}
    (h : ensureCollectionOwned cid uid s = .ok c) :
    c ∈ s.collections ∧ c.id = cid ∧ c.userId = uid := by
  unfold ensureCollectionOwned at h
  cases hh : (s.collections.filter fun x => x.id == cid && x.userId == uid).head? with
  | none => rw [hh] at h; exact absurd h (by simp)
  | some c' =>
    rw [hh] at h
    have hc : c' = c := by injection h
    subst hc
    have hm := mem_of_head?_eq_some hh
    rw [List.mem_filter] at hm
    obtain ⟨hmem, hp⟩ := hm
    simp only [Bool.and_eq_true, beq_iff_eq] at hp
    exact ⟨hmem, hp.1, hp.2⟩

/-- What a successful `ensureSnippetOwned` guarantees about its result. -/
lemma ensureSnippetOwned_ok {sid uid : String} {s : Store} {sn : Snippet}
    (h : ensureSnippetOwned sid uid s = .ok sn) :
    sn ∈ s.snippets ∧ sn.id = sid ∧ sn.userId = uid := by
  unfold ensureSnippetOwned at h
  cases hh : (s.snippets.filter fun x => x.id == sid && x.userId == uid).head? with
  | none => rw [hh] at h; exact absurd h (by simp)
  | some sn' =>
    rw [hh] at h
    have hc : sn' = sn := by injection h
    subst hc
    have hm := mem_of_head?_eq_some hh
    rw [List.mem_filter] at hm
    obtain ⟨hmem, hp⟩ := hm
    simp only [Bool.and_eq_true, beq_iff_eq] at hp
    exact ⟨hmem, hp.1, hp.2⟩

/-- When no Collection row matches both the id and the owner,
    `ensureCollectionOwned` throws `NOT_FOUND`. -/
lemma ensureCollectionOwned_not_found {cid uid : String} {s : Store}
    (h : ∀ c ∈ s.collections, c.id = cid → c.userId ≠ uid) :
    ensureCollectionOwned cid uid s = .error ⟨.NOT_FOUND, "Collection not found."⟩ := by
  unfold ensureCollectionOwned
  have hnil : (s.collections.filter fun x => x.id == cid && x.userId == uid) = [] := by
    rw [List.filter_eq_nil_iff]
    intro c hc
    simp only [Bool.and_eq_true, beq_iff_eq, not_and]
    exact h c hc
  rw [hnil]
  rfl

/-- When some Snippet row matches the id and the owner,
    `ensureSnippetOwned` succeeds with a matching row. -/
lemma ensureSnippetOwned_succeeds {sid uid : String} {s : Store} {sn : Snippet}
    (hm : sn ∈ s.snippets) (h1 : sn.id = sid) (h2 : sn.userId = uid) :
    ∃ sn', ensureSnippetOwned sid uid s = .ok sn' ∧ sn'.id = sid ∧ sn'.userId = uid := by
  unfold ensureSnippetOwned
  cases hh : (s.snippets.filter fun x => x.id == sid && x.userId == uid).head? with
  | none =>
    exfalso
    have hmf : sn ∈ s.snippets.filter fun x => x.id == sid && x.userId == uid := by
      rw [List.mem_filter]
      exact ⟨hm, by simp [h1, h2]⟩
    rw [List.head?_eq_none_iff] at hh
    rw [hh] at hmf
    exact absurd hmf (List.not_mem_nil sn)
  | some sn' =>
    have hmem := mem_of_head?_eq_some hh
    rw [List.mem_filter] at hmem
    obtain ⟨_, hp⟩ := hmem
    simp only [Bool.and_eq_true, beq_iff_eq] at hp
    exact ⟨sn', rfl, hp.1, hp.2⟩

/-- Membership is preserved by `insertDescBy`. -/
lemma mem_insertDescBy {α : Type} (key : α → Nat) (x a : α) (l : List α) :
    a ∈ insertDescBy key x l ↔ a = x ∨ a ∈ l := by
  induction l with
  | nil => simp [insertDescBy]
  | cons y ys ih =>
    unfold insertDescBy
    by_cases h : key y < key x
    · simp [h, List.mem_cons]
    · simp only [h, if_false, List.mem_cons, ih]
      tauto

/-- Membership is preserved by `sortByDescKey`. -/
lemma mem_sortByDescKey {α : Type} (key : α → Nat) (a : α) (l : List α) :
    a ∈ sortByDescKey key l ↔ a ∈ l := by
  induction l with
  | nil => simp [sortByDescKey]
  | cons x xs ih =>
    simp [sortByDescKey, mem_insertDescBy, ih, List.mem_cons]

/-- In a list mapped by an id-preserving transform, the first row found by an
    id-equality filter is exactly the transform of the unique row with that id. -/
lemma head?_filter_map_key {α : Type} (key : α → String) (F : α → α)
    (hF : ∀ x, key (F x) = key x) {l : List α} {c : α}
    (hnd : (l.map key).Nodup) (hc : c ∈ l) :
    ((l.map F).filter fun x => key x == key c).head? = some (F c) := by
  induction l with
  | nil => cases hc
  | cons a t ih =>
    rw [List.map_cons, List.nodup_cons] at hnd
    obtain ⟨hna, hnt⟩ := hnd
    rcases List.mem_cons.mp hc with rfl | hct
    · have hpa : (key (F c) == key c) = true := by simp [hF]
      simp [List.filter_cons, hpa]
    · have hne : key a ≠ key c :=
        fun he => hna (he ▸ List.mem_map_of_mem key hct)
      have hpa : (key (F a) == key c) = false := by
        simp only [hF, beq_eq_false_iff_ne, ne_eq]
        exact hne
      simp only [List.map_cons, List.filter_cons, hpa, Bool.false_eq_true, if_false]
      exact ih hnt hct

/-- With pairwise-distinct keys at most one row matches a key-equality predicate. -/
lemma countP_key_eq_le_one {α : Type} (key : α → String) {l : List α}
    (hnd : (l.map key).Nodup) (x : String) :
    (l.countP fun a => key a == x) ≤ 1 := by
  induction l with
  | nil => simp
  | cons a t ih =>
    rw [List.map_cons, List.nodup_cons] at hnd
    obtain ⟨hna, hnt⟩ := hnd
    rw [List.countP_cons]
    by_cases h : key a = x
    · have hz : (t.countP fun b => key b == x) = 0 := by
        rw [List.countP_eq_zero]
        intro b hb
        simp only [beq_iff_eq]
        intro hbx
        exact hna (by rw [h, ← hbx]; exact List.mem_map_of_mem key hb)
      simp [hz, h]
    · have : (key a == x) = false := by simp [h]
      simp only [this, Bool.false_eq_true, if_false]
      exact le_trans (Nat.le_of_eq (Nat.add_zero _)) (ih hnt)

/-- Two rows of a list with pairwise-distinct keys and equal keys are equal. -/
lemma eq_of_key_eq {α β : Type} {key : α → β} {l : List α}
    (hnd : (l.map key).Nodup) {a b : α} (ha : a ∈ l) (hb : b ∈ l)
    (h : key a = key b) : a = b :=
  List.inj_on_of_nodup_map hnd ha hb h

end SnippetGen

namespace SnippetGen

/-- C8: in the responses of `listMySnippetCollections` and `listSnippets`, the
    `total` field equals the length of the returned `items` page (after
    offset/limit), not the count of all rows matching the filter. -/
theorem listTotals_eq_pageLength
    (i₁ : ListCollectionsInput) (i₂ : ListSnippetsInput) (ctx : Option String) (s : Store)
    (r₁ : ListResult Collection × Store) (r₂ : ListResult Snippet × Store)
    (h₁ : listMySnippetCollections i₁ ctx s = .ok r₁)
    (h₂ : listSnippets i₂ ctx s = .ok r₂) :
    r₁.1.total = r₁.1.items.length ∧ r₂.1.total = r₂.1.items.length := by
  cases ctx with
  | none => exact absurd h₁ (by simp [listMySnippetCollections, requireUser])
  | some u =>
    constructor
    · simp only [listMySnippetCollections, requireUser, Except.ok.injEq] at h₁
      rw [← h₁]
    · simp only [listSnippets, requireUser] at h₂
      split at h₂
      · exact absurd h₂ (by simp)
      · simp only [Except.ok.injEq] at h₂
        rw [← h₂]

/-- C8 witness: the theorem applied at a concrete call on a one-snippet store. -/
theorem listTotals_eq_pageLength_witness :
    listMySnippetCollections ⟨1, 20⟩ (some "u1") ⟨[], []⟩ = .ok (⟨[], 0⟩, ⟨[], []⟩) ∧
    listSnippets ⟨none, false, 1, 20⟩ (some "u1") ⟨[], []⟩ = .ok (⟨[], 0⟩, ⟨[], []⟩) ∧
    ((⟨[], 0⟩ : ListResult Collection).total = 0 ∧
     (⟨[], 0⟩ : ListResult Snippet).total = 0) :=
  ⟨by decide, by decide,
   listTotals_eq_pageLength ⟨1, 20⟩ ⟨none, false, 1, 20⟩ (some "u1") ⟨[], []⟩
     (⟨[], 0⟩, ⟨[], []⟩) (⟨[], 0⟩, ⟨[], []⟩) (by decide) (by decide)⟩

/-- C7: with `includeArchived = false` (the default), no row returned by
    `listSnippets` has `isArchived = true`. -/
theorem listSnippets_excludesArchived
    (i : ListSnippetsInput) (ctx : Option String) (s : Store)
    (r : ListResult Snippet × Store)
    (hia : i.includeArchived = false)
    (h : listSnippets i ctx s = .ok r) :
    ∀ sn ∈ r.1.items, sn.isArchived = false := by
  cases ctx with
  | none => exact absurd h (by simp [listSnippets, requireUser])
  | some u =>
    simp only [listSnippets, requireUser] at h
    split at h
    · exact absurd h (by simp)
    · simp only [Except.ok.injEq] at h
      intro sn hsn
      rw [← h] at hsn
      simp only at hsn
      have h1 := List.mem_of_mem_take hsn
      have h2 := List.mem_of_mem_drop h1
      rw [mem_sortByDescKey, List.mem_filter] at h2
      obtain ⟨_, hp⟩ := h2
      rw [hia] at hp
      simp only [Bool.not_false, if_true, Bool.and_eq_true, beq_iff_eq] at hp
      exact hp.2

/-- C7 witness: the theorem applied at a concrete call on a store holding one
    archived and one active snippet. -/
theorem listSnippets_excludesArchived_witness :
    listSnippets ⟨none, false, 1, 20⟩ (some "u1")
        ⟨[], [⟨"s1", "col1", "u1", "t1", none, "c1", none, none, false, true, 1, 1⟩,
              ⟨"s2", "col1", "u1", "t2", none, "c2", none, none, false, false, 2, 2⟩]⟩ =
      .ok (⟨[⟨"s2", "col1", "u1", "t2", none, "c2", none, none, false, false, 2, 2⟩], 1⟩,
           ⟨[], [⟨"s1", "col1", "u1", "t1", none, "c1", none, none, false, true, 1, 1⟩,
                 ⟨"s2", "col1", "u1", "t2", none, "c2", none, none, false, false, 2, 2⟩]⟩) ∧
    ∀ sn ∈ [(⟨"s2", "col1", "u1", "t2", none, "c2", none, none, false, false, 2, 2⟩ : Snippet)],
      sn.isArchived = false :=
  ⟨by decide,
   listSnippets_excludesArchived ⟨none, false, 1, 20⟩ (some "u1")
     ⟨[], [⟨"s1", "col1", "u1", "t1", none, "c1", none, none, false, true, 1, 1⟩,
           ⟨"s2", "col1", "u1", "t2", none, "c2", none, none, false, false, 2, 2⟩]⟩
     (⟨[⟨"s2", "col1", "u1", "t2", none, "c2", none, none, false, false, 2, 2⟩], 1⟩,
      ⟨[], [⟨"s1", "col1", "u1", "t1", none, "c1", none, none, false, true, 1, 1⟩,
            ⟨"s2", "col1", "u1", "t2", none, "c2", none, none, false, false, 2, 2⟩]⟩)
     rfl (by decide)⟩

/-- C10: `listSnippets` with `collectionId` equal to the empty string passes
    validation, triggers no ownership check, and behaves exactly as if
    `collectionId` were omitted; with an authenticated caller it succeeds. -/
theorem listSnippets_emptyCollectionId_like_omitted
    (ia : Bool) (p ps : Nat) (ctx : Option String) (s : Store) (uid : String) :
    (ListSnippetsInput.Valid ⟨some "", ia, p, ps⟩ ↔
      ListSnippetsInput.Valid ⟨none, ia, p, ps⟩) ∧
    listSnippets ⟨some "", ia, p, ps⟩ ctx s = listSnippets ⟨none, ia, p, ps⟩ ctx s ∧
    ∃ r, listSnippets ⟨some "", ia, p, ps⟩ (some uid) s = .ok r := by
  refine ⟨Iff.rfl, ?_, ?_⟩
  · cases ctx with
    | none => rfl
    | some u =>
      simp only [listSnippets, requireUser, strTruthy]
      rfl
  · simp only [listSnippets, requireUser, strTruthy]
    exact ⟨_, rfl⟩

end SnippetGen

namespace SnippetGen

/-- C3: `createSnippet` with a `collectionId` not owned by the caller (absent
    or owned by someone else) fails with `NOT_FOUND` and leaves the store —
    in particular the Snippets table — untouched. -/
theorem createSnippet_unowned_notFound_noInsert
    (i : CreateSnippetInput) (uid : String) (now : Nat) (freshId : String) (s : Store)
    (hno : ∀ c ∈ s.collections, c.id = i.collectionId → c.userId ≠ uid) :
    createSnippet i (some uid) now freshId s =
      .error ⟨.NOT_FOUND, "Collection not found."⟩ ∧
    runAction (.createSnippetAct i) (some uid) now freshId s = s := by
  have hE := ensureCollectionOwned_not_found hno
  have hmain : createSnippet i (some uid) now freshId s =
      .error ⟨.NOT_FOUND, "Collection not found."⟩ := by
    simp only [createSnippet, requireUser, hE]
  exact ⟨hmain, by simp only [runAction, hmain]⟩

/-- C3 witness: the theorem applied to a caller who targets a collection
    owned by another user. -/
theorem createSnippet_unowned_notFound_noInsert_witness :
    (∀ c ∈ [(⟨"colX", "u2", "N", none, none, false, 1, 1⟩ : Collection)],
        c.id = "colX" → c.userId ≠ "u1") ∧
    createSnippet ⟨"colX", "T", none, "C", none, none, none⟩ (some "u1") 5 "s9"
        ⟨[⟨"colX", "u2", "N", none, none, false, 1, 1⟩], []⟩ =
      .error ⟨.NOT_FOUND, "Collection not found."⟩ ∧
    runAction (.createSnippetAct ⟨"colX", "T", none, "C", none, none, none⟩) (some "u1") 5 "s9"
        ⟨[⟨"colX", "u2", "N", none, none, false, 1, 1⟩], []⟩ =
      ⟨[⟨"colX", "u2", "N", none, none, false, 1, 1⟩], []⟩ :=
  ⟨by decide,
   createSnippet_unowned_notFound_noInsert ⟨"colX", "T", none, "C", none, none, none⟩
     "u1" 5 "s9" ⟨[⟨"colX", "u2", "N", none, none, false, 1, 1⟩], []⟩ (by decide)⟩

/-- C4: `updateSnippet` on an owned snippet, when the supplied `collectionId`
    differs from the current one and is not a collection of the caller, fails
    with `NOT_FOUND` and leaves the store — hence the original row, its
    `updatedAt` included — entirely unchanged. -/
theorem updateSnippet_foreignCollection_notFound_unchanged
    (i : UpdateSnippetInput) (uid cid : String) (now : Nat) (freshId : String)
    (s : Store) (sn : Snippet)
    (hsn : ensureSnippetOwned i.id uid s = .ok sn)
    (hcid : i.collectionId = some cid)
    (hne : cid ≠ sn.collectionId)
    (hno : ∀ c ∈ s.collections, c.id = cid → c.userId ≠ uid) :
    updateSnippet i (some uid) now s = .error ⟨.NOT_FOUND, "Collection not found."⟩ ∧
    runAction (.updateSnippetAct i) (some uid) now freshId s = s := by
  have hE := ensureCollectionOwned_not_found hno
  have hmain : updateSnippet i (some uid) now s =
      .error ⟨.NOT_FOUND, "Collection not found."⟩ := by
    simp only [updateSnippet, requireUser, hsn, hcid]
    rw [if_pos hne]
    simp only [hE]
  exact ⟨hmain, by simp only [runAction, hmain]⟩

/-- C4 witness: the theorem applied to a move attempt into another user's
    collection. -/
theorem updateSnippet_foreignCollection_notFound_unchanged_witness :
    ensureSnippetOwned "s1" "u1"
        ⟨[⟨"col2", "u2", "N", none, none, false, 1, 1⟩],
         [⟨"s1", "col1", "u1", "t", none, "c", none, none, false, false, 1, 1⟩]⟩ =
      .ok ⟨"s1", "col1", "u1", "t", none, "c", none, none, false, false, 1, 1⟩ ∧
    ("col2" : String) ≠ "col1" ∧
    updateSnippet ⟨"s1", none, none, none, none, none, none, none, some "col2"⟩ (some "u1") 5
        ⟨[⟨"col2", "u2", "N", none, none, false, 1, 1⟩],
         [⟨"s1", "col1", "u1", "t", none, "c", none, none, false, false, 1, 1⟩]⟩ =
      .error ⟨.NOT_FOUND, "Collection not found."⟩ ∧
    runAction
        (.updateSnippetAct ⟨"s1", none, none, none, none, none, none, none, some "col2"⟩)
        (some "u1") 5 "f"
        ⟨[⟨"col2", "u2", "N", none, none, false, 1, 1⟩],
         [⟨"s1", "col1", "u1", "t", none, "c", none, none, false, false, 1, 1⟩]⟩ =
      ⟨[⟨"col2", "u2", "N", none, none, false, 1, 1⟩],
       [⟨"s1", "col1", "u1", "t", none, "c", none, none, false, false, 1, 1⟩]⟩ :=
  ⟨by decide, by decide,
   updateSnippet_foreignCollection_notFound_unchanged
     ⟨"s1", none, none, none, none, none, none, none, some "col2"⟩ "u1" "col2" 5 "f"
     ⟨[⟨"col2", "u2", "N", none, none, false, 1, 1⟩],
      [⟨"s1", "col1", "u1", "t", none, "c", none, none, false, false, 1, 1⟩]⟩
     ⟨"s1", "col1", "u1", "t", none, "c", none, none, false, false, 1, 1⟩
     (by decide) rfl (by decide) (by decide)⟩

end SnippetGen

namespace SnippetGen

/-- C6: `archiveSnippet` is idempotent: after a successful call, every row
    with the returned id is archived, a second call on the same id succeeds
    (no error), and afterwards the row is still archived. -/
theorem archiveSnippet_idempotent
    (inputId uid : String) (n₁ n₂ : Nat) (s : Store) (rid : String) (s₁ : Store)
    (h₁ : archiveSnippet inputId (some uid) n₁ s = .ok (rid, s₁)) :
    (∀ sn ∈ s₁.snippets, sn.id = rid → sn.isArchived = true) ∧
    ∃ s₂, archiveSnippet inputId (some uid) n₂ s₁ = .ok (rid, s₂) ∧
      ∀ sn ∈ s₂.snippets, sn.id = rid → sn.isArchived = true := by
  simp only [archiveSnippet, requireUser] at h₁
  cases hE : ensureSnippetOwned inputId uid s with
  | error e => rw [hE] at h₁; exact absurd h₁ (by simp)
  | ok ex =>
    rw [hE] at h₁
    simp only [Except.ok.injEq, Prod.mk.injEq] at h₁
    obtain ⟨hrid, hs₁⟩ := h₁
    obtain ⟨hexmem, hexid, hexuid⟩ := ensureSnippetOwned_ok hE
    subst hrid
    subst hs₁
    have hpart1 : ∀ sn ∈ (s.snippets.map fun x =>
        if x.id == ex.id then { x with isArchived := true, updatedAt := n₁ } else x),
        sn.id = ex.id → sn.isArchived = true := by
      intro sn hsn hid
      rw [List.mem_map] at hsn
      obtain ⟨x, hx, hFx⟩ := hsn
      cases hxid : x.id == ex.id with
      | true => rw [← hFx]; simp [hxid]
      | false =>
        rw [← hFx] at hid
        simp only [hxid, Bool.false_eq_true, if_false] at hid
        rw [hid] at hxid
        simp at hxid
    refine ⟨hpart1, ?_⟩
    have hmem₂ : (if ex.id == ex.id then { ex with isArchived := true, updatedAt := n₁ }
        else ex) ∈ s.snippets.map fun x =>
        if x.id == ex.id then { x with isArchived := true, updatedAt := n₁ } else x :=
      List.mem_map_of_mem _ hexmem
    rw [beq_self_eq_true, if_pos rfl] at hmem₂
    have hid₂ : ({ ex with isArchived := true, updatedAt := n₁ } : Snippet).id = inputId := hexid
    have huid₂ : ({ ex with isArchived := true, updatedAt := n₁ } : Snippet).userId = uid :=
      hexuid
    obtain ⟨ex₂, hE₂, hexid₂, hexuid₂⟩ :=
      @ensureSnippetOwned_succeeds inputId uid
        ⟨s.collections, s.snippets.map fun x =>
          if x.id == ex.id then { x with isArchived := true, updatedAt := n₁ } else x⟩
        _ hmem₂ hid₂ huid₂
    refine ⟨⟨s.collections,
      (s.snippets.map fun x =>
          if x.id == ex.id then { x with isArchived := true, updatedAt := n₁ } else x).map
        fun x => if x.id == ex₂.id then { x with isArchived := true, updatedAt := n₂ }
          else x⟩, ?_, ?_⟩
    · simp only [archiveSnippet, requireUser, hE₂]
      rw [hexid₂, hexid]
    · intro sn hsn hid
      rw [List.mem_map] at hsn
      obtain ⟨x, hx, hFx⟩ := hsn
      cases hxid : x.id == ex₂.id with
      | true => rw [← hFx]; simp [hxid]
      | false =>
        rw [← hFx] at hid ⊢
        simp only [hxid, Bool.false_eq_true, if_false] at hid ⊢
        exact hpart1 x hx hid

end SnippetGen

namespace SnippetGen

/-- C6 witness: the theorem applied to a concrete snippet archived at time 5
    and archived again at time 7. -/
theorem archiveSnippet_idempotent_witness :
    archiveSnippet "s1" (some "u1") 5
        ⟨[], [⟨"s1", "col1", "u1", "t", none, "c", none, none, false, false, 1, 1⟩]⟩ =
      .ok ("s1", ⟨[], [⟨"s1", "col1", "u1", "t", none, "c", none, none, false, true, 1, 5⟩]⟩) ∧
    ((∀ sn ∈ (⟨[], [⟨"s1", "col1", "u1", "t", none, "c", none, none, false, true, 1, 5⟩]⟩ :
          Store).snippets, sn.id = "s1" → sn.isArchived = true) ∧
     ∃ s₂, archiveSnippet "s1" (some "u1") 7
          ⟨[], [⟨"s1", "col1", "u1", "t", none, "c", none, none, false, true, 1, 5⟩]⟩ =
        .ok ("s1", s₂) ∧
       ∀ sn ∈ s₂.snippets, sn.id = "s1" → sn.isArchived = true) :=
  ⟨by decide,
   archiveSnippet_idempotent "s1" "u1" 5 7
     ⟨[], [⟨"s1", "col1", "u1", "t", none, "c", none, none, false, false, 1, 1⟩]⟩ "s1"
     ⟨[], [⟨"s1", "col1", "u1", "t", none, "c", none, none, false, true, 1, 5⟩]⟩
     (by decide)⟩

end SnippetGen

namespace SnippetGen

/-- C9: when `isDefault = true` is supplied, the default-clearing bulk update
    of both collection handlers sets `updatedAt = now` on every Collection
    owned by the caller, and every non-target sibling row is rewritten to the
    same row with only `isDefault` cleared and `updatedAt` bumped. -/
theorem defaultClear_touches_all_owned_rows
    (i₁ : CreateCollectionInput) (i₂ : UpdateCollectionInput) (uid : String)
    (now : Nat) (freshId : String) (s : Store)
    (r₁ : Collection × Store) (r₂ : Option Collection × Store)
    (hd₁ : i₁.isDefault = some true) (hd₂ : i₂.isDefault = some true)
    (h₁ : createSnippetCollection i₁ (some uid) now freshId s = .ok r₁)
    (h₂ : updateSnippetCollection i₂ (some uid) now s = .ok r₂) :
    ((∀ c ∈ r₁.2.collections, c.userId = uid → c.updatedAt = now) ∧
     ∀ c ∈ s.collections, c.userId = uid →
       { c with isDefault := false, updatedAt := now } ∈ r₁.2.collections) ∧
    ((∀ c ∈ r₂.2.collections, c.userId = uid → c.updatedAt = now) ∧
     ∀ c ∈ s.collections, c.userId = uid → c.id ≠ i₂.id →
       { c with isDefault := false, updatedAt := now } ∈ r₂.2.collections) := by
  constructor
  · simp only [createSnippetCollection, requireUser, hd₁, beq_self_eq_true, if_true,
      Except.ok.injEq] at h₁
    rw [← h₁]
    constructor
    · intro c hc hcu
      rcases List.mem_append.mp hc with hc | hc
      · unfold clearDefaults at hc
        rw [List.mem_map] at hc
        obtain ⟨x, hx, hFx⟩ := hc
        cases hxu : x.userId == uid with
        | true => rw [← hFx]; simp [hxu]
        | false =>
          rw [← hFx] at hcu
          simp only [hxu, Bool.false_eq_true, if_false] at hcu
          rw [hcu] at hxu
          simp at hxu
      · simp only [List.mem_singleton] at hc
        rw [hc]
    · intro c hc hcu
      apply List.mem_append_left
      unfold clearDefaults
      rw [List.mem_map]
      exact ⟨c, hc, by simp [hcu]⟩
  · simp only [updateSnippetCollection, requireUser] at h₂
    cases hE : ensureCollectionOwned i₂.id uid s with
    | error e => rw [hE] at h₂; exact absurd h₂ (by simp)
    | ok ex =>
      rw [hE] at h₂
      obtain ⟨hexmem, hexid, hexuid⟩ := ensureCollectionOwned_ok hE
      simp only [hd₂, beq_self_eq_true, if_true, Except.ok.injEq] at h₂
      rw [← h₂]
      constructor
      · intro c hc hcu
        rw [List.mem_map] at hc
        obtain ⟨y, hy, hFy⟩ := hc
        cases hyid : y.id == ex.id with
        | true => rw [← hFy]; simp [hyid, applyCollectionUpdate]
        | false =>
          rw [← hFy] at hcu ⊢
          simp only [hyid, Bool.false_eq_true, if_false] at hcu ⊢
          unfold clearDefaults at hy
          rw [List.mem_map] at hy
          obtain ⟨x, hx, hGx⟩ := hy
          cases hxu : x.userId == uid with
          | true => rw [← hGx]; simp [hxu]
          | false =>
            rw [← hGx] at hcu
            simp only [hxu, Bool.false_eq_true, if_false] at hcu
            rw [hcu] at hxu
            simp at hxu
      · intro c hc hcu hcid
        rw [List.mem_map]
        refine ⟨{ c with isDefault := false, updatedAt := now }, ?_, ?_⟩
        · unfold clearDefaults
          rw [List.mem_map]
          exact ⟨c, hc, by simp [hcu]⟩
        · have : (({ c with isDefault := false, updatedAt := now } : Collection).id == ex.id) =
              false := by
            simp only [beq_eq_false_iff_ne, ne_eq]
            rw [hexid]
            exact hcid
          simp only [this, Bool.false_eq_true, if_false]

end SnippetGen

namespace SnippetGen

/-- C9 witness: the theorem applied to a one-collection store, for a create
    and an update that both set `isDefault = true`. -/
theorem defaultClear_touches_all_owned_rows_witness :
    createSnippetCollection ⟨"N", none, none, some true⟩ (some "u1") 5 "col9"
        ⟨[⟨"col1", "u1", "SQL", none, none, true, 1, 1⟩], []⟩ =
      .ok (⟨"col9", "u1", "N", none, none, true, 5, 5⟩,
        ⟨[⟨"col1", "u1", "SQL", none, none, false, 1, 5⟩,
          ⟨"col9", "u1", "N", none, none, true, 5, 5⟩], []⟩) ∧
    updateSnippetCollection ⟨"col1", none, none, none, some true⟩ (some "u1") 5
        ⟨[⟨"col1", "u1", "SQL", none, none, true, 1, 1⟩], []⟩ =
      .ok (some ⟨"col1", "u1", "SQL", none, none, true, 1, 5⟩,
        ⟨[⟨"col1", "u1", "SQL", none, none, true, 1, 5⟩], []⟩) ∧
    (((∀ c ∈ ((⟨"col9", "u1", "N", none, none, true, 5, 5⟩, (⟨[⟨"col1", "u1", "SQL", none,
          none, false, 1, 5⟩, ⟨"col9", "u1", "N", none, none, true, 5, 5⟩], []⟩ : Store)) :
          Collection × Store).2.collections, c.userId = "u1" → c.updatedAt = 5) ∧
      ∀ c ∈ (⟨[⟨"col1", "u1", "SQL", none, none, true, 1, 1⟩], []⟩ : Store).collections,
        c.userId = "u1" →
        { c with isDefault := false, updatedAt := 5 } ∈
          ((⟨"col9", "u1", "N", none, none, true, 5, 5⟩, (⟨[⟨"col1", "u1", "SQL", none, none,
            false, 1, 5⟩, ⟨"col9", "u1", "N", none, none, true, 5, 5⟩], []⟩ : Store)) :
            Collection × Store).2.collections) ∧
     ((∀ c ∈ ((some ⟨"col1", "u1", "SQL", none, none, true, 1, 5⟩, (⟨[⟨"col1", "u1", "SQL",
          none, none, true, 1, 5⟩], []⟩ : Store)) :
          Option Collection × Store).2.collections, c.userId = "u1" → c.updatedAt = 5) ∧
      ∀ c ∈ (⟨[⟨"col1", "u1", "SQL", none, none, true, 1, 1⟩], []⟩ : Store).collections,
        c.userId = "u1" → c.id ≠ (⟨"col1", none, none, none, some true⟩ :
          UpdateCollectionInput).id →
        { c with isDefault := false, updatedAt := 5 } ∈
          ((some ⟨"col1", "u1", "SQL", none, none, true, 1, 5⟩, (⟨[⟨"col1", "u1", "SQL", none,
            none, true, 1, 5⟩], []⟩ : Store)) :
            Option Collection × Store).2.collections)) :=
  ⟨by decide, by decide,
   defaultClear_touches_all_owned_rows ⟨"N", none, none, some true⟩
     ⟨"col1", none, none, none, some true⟩ "u1" 5 "col9"
     ⟨[⟨"col1", "u1", "SQL", none, none, true, 1, 1⟩], []⟩
     (⟨"col9", "u1", "N", none, none, true, 5, 5⟩,
      ⟨[⟨"col1", "u1", "SQL", none, none, false, 1, 5⟩,
        ⟨"col9", "u1", "N", none, none, true, 5, 5⟩], []⟩)
     (some ⟨"col1", "u1", "SQL", none, none, true, 1, 5⟩,
      ⟨[⟨"col1", "u1", "SQL", none, none, true, 1, 5⟩], []⟩)
     rfl rfl (by decide) (by decide)⟩

end SnippetGen

namespace SnippetGen

/-- The per-row function of `clearDefaults` preserves `id`. -/
lemma clearDefaults_fn_id (uid : String) (now : Nat) (x : Collection) :
    ((if (x.userId == uid) = true then { x with isDefault := false, updatedAt := now }
      else x) : Collection).id = x.id := by
  split <;> rfl

/-- The per-row function of the targeted collection update preserves `id`. -/
lemma updateFn_id (U : CollectionUpdateData) (tid : String) (x : Collection) :
    ((if (x.id == tid) = true then applyCollectionUpdate U x else x) : Collection).id =
      x.id := by
  split <;> rfl

/-- `applyCollectionUpdate` only sets `description`/`icon` to the value carried
    by the update data, and never clears a present value to `none`. -/
lemma applyUpdate_desc_icon (U : CollectionUpdateData) (x existing : Collection)
    (hd : x.description = existing.description) (hi : x.icon = existing.icon) :
    ((applyCollectionUpdate U x).description = existing.description ∨
      (applyCollectionUpdate U x).description = U.description) ∧
    ((applyCollectionUpdate U x).description = none → existing.description = none) ∧
    ((applyCollectionUpdate U x).icon = existing.icon ∨
      (applyCollectionUpdate U x).icon = U.icon) ∧
    ((applyCollectionUpdate U x).icon = none → existing.icon = none) := by
  refine ⟨?_, ?_, ?_, ?_⟩
  · cases hdu : U.description with
    | some d => right; simp [applyCollectionUpdate, hdu]
    | none => left; simp [applyCollectionUpdate, hdu, hd]
  · cases hdu : U.description with
    | some d => intro h; simp [applyCollectionUpdate, hdu] at h
    | none =>
      intro h
      simp only [applyCollectionUpdate, hdu] at h
      rw [← hd]
      exact h
  · cases hiu : U.icon with
    | some v => right; simp [applyCollectionUpdate, hiu]
    | none => left; simp [applyCollectionUpdate, hiu, hi]
  · cases hiu : U.icon with
    | some v => intro h; simp [applyCollectionUpdate, hiu] at h
    | none =>
      intro h
      simp only [applyCollectionUpdate, hiu] at h
      rw [← hi]
      exact h

/-- C5 counterexample: the empty string is accepted by the validation of
    `updateSnippetCollection` (`z.string().optional()` has no `min(1)` on
    `description`), and supplying `description = ""` clears a previously
    non-empty description to the empty string. -/
theorem updateCollection_clears_description_counterexample :
    UpdateCollectionInput.Valid ⟨"col1", none, some "", none, none⟩ ∧
    (⟨"col1", "u1", "SQL", some "x", none, false, 1, 1⟩ : Collection).description = some "x" ∧
    ("x" : String) ≠ "" ∧
    updateSnippetCollection ⟨"col1", none, some "", none, none⟩ (some "u1") 5
        ⟨[⟨"col1", "u1", "SQL", some "x", none, false, 1, 1⟩], []⟩ =
      .ok (some ⟨"col1", "u1", "SQL", some "", none, false, 1, 5⟩,
        ⟨[⟨"col1", "u1", "SQL", some "", none, false, 1, 5⟩], []⟩) := by
  exact ⟨by decide, rfl, by decide, by decide⟩

/-- C5 (amended): through `updateSnippetCollection`, `description` and `icon`
    can never be cleared to NULL/absent (an absent input field means "leave
    unchanged"): the post-update value is either the previous value or exactly
    the string the caller supplied — although that supplied string may be
    empty, since validation accepts the empty string. -/
theorem updateCollection_description_icon_not_nullable
    (i : UpdateCollectionInput) (uid : String) (now : Nat) (s : Store)
    (existing : Collection) (post : Option Collection) (s' : Store)
    (hnd : (s.collections.map Collection.id).Nodup)
    (hex : ensureCollectionOwned i.id uid s = .ok existing)
    (hok : updateSnippetCollection i (some uid) now s = .ok (post, s')) :
    ∃ c, post = some c ∧
      (c.description = existing.description ∨ c.description = i.description) ∧
      (c.description = none → existing.description = none) ∧
      (c.icon = existing.icon ∨ c.icon = i.icon) ∧
      (c.icon = none → existing.icon = none) := by
  obtain ⟨hexmem, hexid, hexuid⟩ := ensureCollectionOwned_ok hex
  have hgu : (existing.userId == uid) = true := by simp [hexuid]
  cases hb : i.isDefault == some true with
  | true =>
    simp only [updateSnippetCollection, requireUser, hex, hb, if_true, Except.ok.injEq,
      Prod.mk.injEq] at hok
    obtain ⟨hpost, hs'⟩ := hok
    subst hpost
    have hhead := head?_filter_map_key Collection.id
      ((fun c : Collection =>
          if c.id == existing.id then
            applyCollectionUpdate ⟨now, i.name, i.description, i.icon, i.isDefault⟩ c
          else c) ∘
        (fun c : Collection =>
          if c.userId == uid then { c with isDefault := false, updatedAt := now } else c))
      (fun x => by
        simp only [Function.comp_apply]
        rw [updateFn_id, clearDefaults_fn_id])
      hnd hexmem
    simp only [Function.comp_apply, hgu, if_true, beq_self_eq_true] at hhead
    simp only [clearDefaults, List.map_map]
    exact ⟨_, hhead, applyUpdate_desc_icon _ _ _ rfl rfl⟩
  | false =>
    simp only [updateSnippetCollection, requireUser, hex, hb, Bool.false_eq_true, if_false,
      Except.ok.injEq, Prod.mk.injEq] at hok
    obtain ⟨hpost, hs'⟩ := hok
    subst hpost
    have hhead := head?_filter_map_key Collection.id
      (fun c : Collection =>
        if c.id == existing.id then
          applyCollectionUpdate ⟨now, i.name, i.description, i.icon, i.isDefault⟩ c
        else c)
      (fun x => updateFn_id _ _ _)
      hnd hexmem
    simp only [beq_self_eq_true, if_true] at hhead
    exact ⟨_, hhead, applyUpdate_desc_icon _ _ _ rfl rfl⟩

/-- C5 witness: the amended theorem applied to an update that sets the icon
    while leaving the description untouched. -/
theorem updateCollection_description_icon_not_nullable_witness :
    ensureCollectionOwned "col1" "u1"
        ⟨[⟨"col1", "u1", "SQL", some "x", none, false, 1, 1⟩], []⟩ =
      .ok ⟨"col1", "u1", "SQL", some "x", none, false, 1, 1⟩ ∧
    updateSnippetCollection ⟨"col1", none, none, some "ic", none⟩ (some "u1") 5
        ⟨[⟨"col1", "u1", "SQL", some "x", none, false, 1, 1⟩], []⟩ =
      .ok (some ⟨"col1", "u1", "SQL", some "x", some "ic", false, 1, 5⟩,
        ⟨[⟨"col1", "u1", "SQL", some "x", some "ic", false, 1, 5⟩], []⟩) ∧
    ∃ c, (some ⟨"col1", "u1", "SQL", some "x", some "ic", false, 1, 5⟩ :
        Option Collection) = some c ∧
      (c.description = (⟨"col1", "u1", "SQL", some "x", none, false, 1, 1⟩ :
          Collection).description ∨
        c.description = (⟨"col1", none, none, some "ic", none⟩ :
          UpdateCollectionInput).description) ∧
      (c.description = none → (⟨"col1", "u1", "SQL", some "x", none, false, 1, 1⟩ :
          Collection).description = none) ∧
      (c.icon = (⟨"col1", "u1", "SQL", some "x", none, false, 1, 1⟩ : Collection).icon ∨
        c.icon = (⟨"col1", none, none, some "ic", none⟩ : UpdateCollectionInput).icon) ∧
      (c.icon = none → (⟨"col1", "u1", "SQL", some "x", none, false, 1, 1⟩ :
          Collection).icon = none) :=
  ⟨by decide, by decide,
   updateCollection_description_icon_not_nullable ⟨"col1", none, none, some "ic", none⟩
     "u1" 5 ⟨[⟨"col1", "u1", "SQL", some "x", none, false, 1, 1⟩], []⟩
     ⟨"col1", "u1", "SQL", some "x", none, false, 1, 1⟩
     (some ⟨"col1", "u1", "SQL", some "x", some "ic", false, 1, 5⟩)
     ⟨[⟨"col1", "u1", "SQL", some "x", some "ic", false, 1, 5⟩], []⟩
     (by decide) (by decide) (by decide)⟩

end SnippetGen

namespace SnippetGen

/-- A targeted snippet update whose update data does not carry
    `isArchived = false` keeps every row with the archived snippet's id
    archived. -/
lemma updateSnippet_tail (upd : SnippetUpdateData) (ex sn : Snippet) (s : Store)
    (hnd : (s.snippets.map Snippet.id).Nodup) (hm : sn ∈ s.snippets)
    (ha : sn.isArchived = true)
    (hupd : upd.isArchived = none ∨ upd.isArchived = some true) :
    ∀ sn' ∈ (s.snippets.map fun x =>
        if x.id == ex.id then applySnippetUpdate upd x else x),
      sn'.id = sn.id → sn'.isArchived = true := by
  intro sn' hm' hid'
  rw [List.mem_map] at hm'
  obtain ⟨x, hx, hFx⟩ := hm'
  cases hxid : x.id == ex.id with
  | true =>
    rw [← hFx] at hid' ⊢
    simp only [hxid, if_true] at hid' ⊢
    have hxsn : x = sn := eq_of_key_eq hnd hx hm hid'
    subst hxsn
    show (applySnippetUpdate upd x).isArchived = true
    rcases hupd with h1 | h1 <;> simp [applySnippetUpdate, h1, ha]
  | false =>
    rw [← hFx] at hid' ⊢
    simp only [hxid, Bool.false_eq_true, if_false] at hid' ⊢
    rw [eq_of_key_eq hnd hx hm hid']
    exact ha

/-- C2 (amended): once a snippet has `isArchived = true`, no action of the
    interface other than `updateSnippet` called with an explicit
    `isArchived = false` in its input ever transitions it back:
    `archiveSnippet` is the only archiving trigger, there is no dedicated
    unarchive operation, and every other action leaves the flag `true`. -/
theorem archivedStaysArchived_unless_updateSnippet_unarchive
    (a : Action) (ctx : Option String) (now : Nat) (freshId : String) (s : Store)
    (sn : Snippet)
    (hnd : (s.snippets.map Snippet.id).Nodup)
    (hfresh : freshId ≠ sn.id)
    (hm : sn ∈ s.snippets) (ha : sn.isArchived = true)
    (hnoun : ∀ i, a = Action.updateSnippetAct i → i.isArchived ≠ some false) :
    ∀ sn' ∈ (runAction a ctx now freshId s).snippets, sn'.id = sn.id →
      sn'.isArchived = true := by
  have hkeep : ∀ sn' ∈ s.snippets, sn'.id = sn.id → sn'.isArchived = true := by
    intro sn' hm' hid
    rw [eq_of_key_eq hnd hm' hm hid]
    exact ha
  cases a with
  | createCollectionAct i =>
    simp only [runAction]
    cases h : createSnippetCollection i ctx now freshId s with
    | error e => exact hkeep
    | ok r =>
      obtain ⟨v, s2⟩ := r
      show ∀ sn' ∈ s2.snippets, sn'.id = sn.id → sn'.isArchived = true
      have hsnips : s2.snippets = s.snippets := by
        cases ctx with
        | none => exact absurd h (by simp [createSnippetCollection, requireUser])
        | some u =>
          simp only [createSnippetCollection, requireUser, Except.ok.injEq,
            Prod.mk.injEq] at h
          obtain ⟨hv, hst⟩ := h
          rw [← hst]
          cases hb : i.isDefault == some true <;> simp [hb]
      rw [hsnips]
      exact hkeep
  | updateCollectionAct i =>
    simp only [runAction]
    cases h : updateSnippetCollection i ctx now s with
    | error e => exact hkeep
    | ok r =>
      obtain ⟨v, s2⟩ := r
      show ∀ sn' ∈ s2.snippets, sn'.id = sn.id → sn'.isArchived = true
      have hsnips : s2.snippets = s.snippets := by
        cases ctx with
        | none => exact absurd h (by simp [updateSnippetCollection, requireUser])
        | some u =>
          simp only [updateSnippetCollection, requireUser] at h
          split at h
          · exact absurd h (by simp)
          · simp only [Except.ok.injEq, Prod.mk.injEq] at h
            obtain ⟨hv, hst⟩ := h
            rw [← hst]
            cases hb : i.isDefault == some true <;> simp [hb]
      rw [hsnips]
      exact hkeep
  | listCollectionsAct i =>
    simp only [runAction]
    cases h : listMySnippetCollections i ctx s with
    | error e => exact hkeep
    | ok r =>
      obtain ⟨v, s2⟩ := r
      show ∀ sn' ∈ s2.snippets, sn'.id = sn.id → sn'.isArchived = true
      cases ctx with
      | none => exact absurd h (by simp [listMySnippetCollections, requireUser])
      | some u =>
        simp only [listMySnippetCollections, requireUser, Except.ok.injEq,
          Prod.mk.injEq] at h
        obtain ⟨hv, hst⟩ := h
        rw [← hst]
        exact hkeep
  | listSnippetsAct i =>
    simp only [runAction]
    cases h : listSnippets i ctx s with
    | error e => exact hkeep
    | ok r =>
      obtain ⟨v, s2⟩ := r
      show ∀ sn' ∈ s2.snippets, sn'.id = sn.id → sn'.isArchived = true
      cases ctx with
      | none => exact absurd h (by simp [listSnippets, requireUser])
      | some u =>
        simp only [listSnippets, requireUser] at h
        split at h
        · exact absurd h (by simp)
        · simp only [Except.ok.injEq, Prod.mk.injEq] at h
          obtain ⟨hv, hst⟩ := h
          rw [← hst]
          exact hkeep
  | getSnippetAct iid =>
    simp only [runAction]
    cases h : getSnippet iid ctx s with
    | error e => exact hkeep
    | ok r =>
      obtain ⟨v, s2⟩ := r
      show ∀ sn' ∈ s2.snippets, sn'.id = sn.id → sn'.isArchived = true
      cases ctx with
      | none => exact absurd h (by simp [getSnippet, requireUser])
      | some u =>
        simp only [getSnippet, requireUser] at h
        split at h
        · exact absurd h (by simp)
        · simp only [Except.ok.injEq, Prod.mk.injEq] at h
          obtain ⟨hv, hst⟩ := h
          rw [← hst]
          exact hkeep
  | createSnippetAct i =>
    simp only [runAction]
    cases h : createSnippet i ctx now freshId s with
    | error e => exact hkeep
    | ok r =>
      obtain ⟨v, s2⟩ := r
      show ∀ sn' ∈ s2.snippets, sn'.id = sn.id → sn'.isArchived = true
      cases ctx with
      | none => exact absurd h (by simp [createSnippet, requireUser])
      | some u =>
        simp only [createSnippet, requireUser] at h
        split at h
        · exact absurd h (by simp)
        · simp only [Except.ok.injEq, Prod.mk.injEq] at h
          obtain ⟨hv, hst⟩ := h
          rw [← hst]
          intro sn' hm' hid'
          simp only at hm'
          rcases List.mem_append.mp hm' with hm' | hm'
          · exact hkeep sn' hm' hid'
          · simp only [List.mem_singleton] at hm'
            subst hm'
            exact absurd hid' hfresh
  | archiveSnippetAct iid =>
    simp only [runAction]
    cases h : archiveSnippet iid ctx now s with
    | error e => exact hkeep
    | ok r =>
      obtain ⟨v, s2⟩ := r
      show ∀ sn' ∈ s2.snippets, sn'.id = sn.id → sn'.isArchived = true
      cases ctx with
      | none => exact absurd h (by simp [archiveSnippet, requireUser])
      | some u =>
        simp only [archiveSnippet, requireUser] at h
        cases hE : ensureSnippetOwned iid u s with
        | error e => rw [hE] at h; exact absurd h (by simp)
        | ok ex =>
          rw [hE] at h
          simp only [Except.ok.injEq, Prod.mk.injEq] at h
          obtain ⟨hv, hst⟩ := h
          rw [← hst]
          intro sn' hm' hid'
          simp only [List.mem_map] at hm'
          obtain ⟨x, hx, hFx⟩ := hm'
          cases hxid : x.id == ex.id with
          | true => rw [← hFx]; simp [hxid]
          | false =>
            rw [← hFx] at hid' ⊢
            simp only [hxid, Bool.false_eq_true, if_false] at hid' ⊢
            exact hkeep x hx hid'
  | updateSnippetAct i =>
    have hnb : i.isArchived ≠ some false := hnoun i rfl
    have hupd : i.isArchived = none ∨ i.isArchived = some true := by
      cases hia : i.isArchived with
      | none => left; rfl
      | some b =>
        cases b with
        | true => right; rfl
        | false => exact absurd hia hnb
    simp only [runAction]
    cases h : updateSnippet i ctx now s with
    | error e => exact hkeep
    | ok r =>
      obtain ⟨v, s2⟩ := r
      show ∀ sn' ∈ s2.snippets, sn'.id = sn.id → sn'.isArchived = true
      cases ctx with
      | none => exact absurd h (by simp [updateSnippet, requireUser])
      | some u =>
        cases hE : ensureSnippetOwned i.id u s with
        | error e => simp [updateSnippet, requireUser, hE] at h
        | ok ex =>
          cases hcid : i.collectionId with
          | none =>
            simp only [updateSnippet, requireUser, hE, hcid, Except.ok.injEq,
              Prod.mk.injEq] at h
            obtain ⟨hv, hst⟩ := h
            rw [← hst]
            exact updateSnippet_tail _ ex sn s hnd hm ha hupd
          | some cid =>
            simp only [updateSnippet, requireUser, hE, hcid] at h
            by_cases hcc : cid ≠ ex.collectionId
            · rw [if_pos hcc] at h
              cases hE2 : ensureCollectionOwned cid u s with
              | error e => rw [hE2] at h; exact absurd h (by simp)
              | ok c2 =>
                rw [hE2] at h
                simp only [Except.ok.injEq, Prod.mk.injEq] at h
                obtain ⟨hv, hst⟩ := h
                rw [← hst]
                exact updateSnippet_tail _ ex sn s hnd hm ha hupd
            · rw [if_neg hcc] at h
              simp only [Except.ok.injEq, Prod.mk.injEq] at h
              obtain ⟨hv, hst⟩ := h
              rw [← hst]
              exact updateSnippet_tail _ ex sn s hnd hm ha hupd


/-- C2 counterexample: the claim as stated is false — `updateSnippet` with
    `isArchived = false`, a valid input, transitions an archived snippet back
    to `isArchived = false`. -/
theorem archivalOneWay_counterexample :
    UpdateSnippetInput.Valid ⟨"s1", none, none, none, none, none, none, some false, none⟩ ∧
    (⟨"s1", "col1", "u1", "t", none, "c", none, none, false, true, 1, 1⟩ :
      Snippet).isArchived = true ∧
    updateSnippet ⟨"s1", none, none, none, none, none, none, some false, none⟩ (some "u1") 5
        ⟨[], [⟨"s1", "col1", "u1", "t", none, "c", none, none, false, true, 1, 1⟩]⟩ =
      .ok (some ⟨"s1", "col1", "u1", "t", none, "c", none, none, false, false, 1, 5⟩,
        ⟨[], [⟨"s1", "col1", "u1", "t", none, "c", none, none, false, false, 1, 5⟩]⟩) :=
  ⟨by decide, rfl, by decide⟩

/-- C2 witness: the amended theorem applied to `archiveSnippet` on an
    already-archived snippet. -/
theorem archivedStaysArchived_witness :
    ((⟨[], [⟨"s1", "col1", "u1", "t", none, "c", none, none, false, true, 1, 1⟩]⟩ :
        Store).snippets.map Snippet.id).Nodup ∧
    ("f" : String) ≠ "s1" ∧
    (⟨"s1", "col1", "u1", "t", none, "c", none, none, false, true, 1, 1⟩ : Snippet) ∈
      (⟨[], [⟨"s1", "col1", "u1", "t", none, "c", none, none, false, true, 1, 1⟩]⟩ :
        Store).snippets ∧
    ∀ sn' ∈ (runAction (.archiveSnippetAct "s1") (some "u1") 7 "f"
        ⟨[], [⟨"s1", "col1", "u1", "t", none, "c", none, none, false, true, 1, 1⟩]⟩).snippets,
      sn'.id = "s1" → sn'.isArchived = true :=
  ⟨by decide, by decide, by decide,
   archivedStaysArchived_unless_updateSnippet_unarchive (.archiveSnippetAct "s1")
     (some "u1") 7 "f"
     ⟨[], [⟨"s1", "col1", "u1", "t", none, "c", none, none, false, true, 1, 1⟩]⟩
     ⟨"s1", "col1", "u1", "t", none, "c", none, none, false, true, 1, 1⟩
     (by decide) (by decide) (by decide) rfl (fun i h => nomatch h)⟩

end SnippetGen

namespace SnippetGen

/-- `defaultCount` as a `countP`. -/
lemma defaultCount_eq_countP (u : String) (cs : List Collection) :
    defaultCount u cs = cs.countP fun c => c.userId == u && c.isDefault :=
  (List.countP_eq_length_filter _ _).symm

lemma createCollection_preserves_defaultCount
    (i : CreateCollectionInput) (uid : String) (now : Nat) (freshId : String) (s : Store)
    (r : Collection × Store)
    (hinv : ∀ u, defaultCount u s.collections ≤ 1)
    (h : createSnippetCollection i (some uid) now freshId s = .ok r) :
    ∀ u, defaultCount u r.2.collections ≤ 1 := by
  obtain ⟨v, s2⟩ := r
  obtain ⟨s2c, s2s⟩ := s2
  cases hb : i.isDefault == some true with
  | true =>
    simp only [createSnippetCollection, requireUser, hb, if_true, Except.ok.injEq,
      Prod.mk.injEq, Store.mk.injEq] at h
    obtain ⟨hv, hXc, hYs⟩ := h
    intro u
    show defaultCount u s2c ≤ 1
    rw [← hXc, defaultCount_eq_countP, List.countP_append, clearDefaults, List.countP_map]
    by_cases hu : u = uid
    · subst hu
      have hz : (List.countP ((fun c => c.userId == u && c.isDefault) ∘ fun c =>
          if c.userId == u then { c with isDefault := false, updatedAt := now } else c)
          s.collections) = 0 := by
        rw [List.countP_eq_zero]
        intro x hx
        simp only [Function.comp_apply]
        cases hxu : x.userId == u with
        | true => simp [hxu]
        | false => simp [hxu]
      rw [hz, Nat.zero_add]
      exact le_trans (List.countP_le_length _) (by simp)
    · have hone : (List.countP ((fun c => c.userId == u && c.isDefault) ∘ fun c =>
          if c.userId == uid then { c with isDefault := false, updatedAt := now } else c)
          s.collections) = List.countP (fun c => c.userId == u && c.isDefault)
          s.collections := by
        apply List.countP_congr
        intro x hx
        simp only [Function.comp_apply]
        cases hxu : x.userId == uid with
        | true =>
          have hxu' : (x.userId == u) = false := by
            simp only [beq_eq_false_iff_ne, ne_eq]
            intro hq
            exact hu (by rw [← hq, beq_iff_eq.mp hxu])
          simp [hxu, hxu']
        | false => simp [hxu]
      have hnewc : (List.countP (fun c => c.userId == u && c.isDefault)
          [({ id := freshId, userId := uid, name := i.name, description := i.description,
              icon := i.icon, isDefault := i.isDefault.getD false, createdAt := now,
              updatedAt := now } : Collection)]) = 0 := by
        have huid : (uid == u) = false := by
          simp only [beq_eq_false_iff_ne, ne_eq]
          intro hq
          exact hu hq.symm
        simp [List.countP_cons, huid]
      rw [hone, hnewc, Nat.add_zero]
      rw [← defaultCount_eq_countP]
      exact hinv u
  | false =>
    have hgd : i.isDefault.getD false = false := by
      cases hbv : i.isDefault with
      | none => rfl
      | some b =>
        cases b with
        | true => rw [hbv] at hb; simp at hb
        | false => rfl
    simp only [createSnippetCollection, requireUser, hb, Bool.false_eq_true, if_false,
      Except.ok.injEq, Prod.mk.injEq, Store.mk.injEq] at h
    obtain ⟨hv, hXc, hYs⟩ := h
    intro u
    show defaultCount u s2c ≤ 1
    rw [← hXc, defaultCount_eq_countP, List.countP_append]
    have hnewc : (List.countP (fun c => c.userId == u && c.isDefault)
        [({ id := freshId, userId := uid, name := i.name, description := i.description,
            icon := i.icon, isDefault := i.isDefault.getD false, createdAt := now,
            updatedAt := now } : Collection)]) = 0 := by
      simp [List.countP_cons, hgd]
    rw [hnewc, Nat.add_zero, ← defaultCount_eq_countP]
    exact hinv u



lemma updateCollection_preserves_defaultCount
    (i : UpdateCollectionInput) (uid : String) (now : Nat) (s : Store)
    (r : Option Collection × Store)
    (hnd : (s.collections.map Collection.id).Nodup)
    (hinv : ∀ u, defaultCount u s.collections ≤ 1)
    (h : updateSnippetCollection i (some uid) now s = .ok r) :
    ∀ u, defaultCount u r.2.collections ≤ 1 := by
  obtain ⟨v, s2⟩ := r
  obtain ⟨s2c, s2s⟩ := s2
  cases hE : ensureCollectionOwned i.id uid s with
  | error e => simp [updateSnippetCollection, requireUser, hE] at h
  | ok ex =>
    obtain ⟨hexmem, hexid, hexuid⟩ := ensureCollectionOwned_ok hE
    cases hb : i.isDefault == some true with
    | true =>
      have hbd : i.isDefault = some true := by
        cases hbv : i.isDefault with
        | none => rw [hbv] at hb; simp at hb
        | some b =>
          cases b with
          | true => rfl
          | false => rw [hbv] at hb; simp at hb
      simp only [updateSnippetCollection, requireUser, hE, hb, if_true, Except.ok.injEq,
        Prod.mk.injEq, Store.mk.injEq] at h
      obtain ⟨hv, hXc, hYs⟩ := h
      intro u
      show defaultCount u s2c ≤ 1
      rw [← hXc, defaultCount_eq_countP, clearDefaults, List.countP_map, List.countP_map]
      by_cases hu : u = uid
      · subst hu
        refine le_trans (List.countP_mono_left ?_) (countP_key_eq_le_one Collection.id hnd
          ex.id)
        intro x hx hpx
        simp only [Function.comp_apply] at hpx
        rw [clearDefaults_fn_id] at hpx
        cases hxid : x.id == ex.id with
        | true => rfl
        | false =>
          exfalso
          simp only [hxid, Bool.false_eq_true, if_false] at hpx
          cases hxu : x.userId == u with
          | true => simp [hxu] at hpx
          | false => simp [hxu] at hpx
      · refine le_trans (le_of_eq (List.countP_congr ?_))
          (by rw [← defaultCount_eq_countP]; exact hinv u)
        intro x hx
        simp only [Function.comp_apply]
        rw [clearDefaults_fn_id]
        cases hxid : x.id == ex.id with
        | true =>
          have hxex : x = ex :=
            eq_of_key_eq hnd hx hexmem (beq_iff_eq.mp hxid)
          have hxu : (x.userId == u) = false := by
            simp only [beq_eq_false_iff_ne, ne_eq]
            rw [hxex, hexuid]
            intro hq
            exact hu hq.symm
          cases hcu : x.userId == uid with
          | true => simp [hxid, hxu, applyCollectionUpdate, hbd]
          | false => simp [hxid, hxu, applyCollectionUpdate, hbd]
        | false =>
          simp only [hxid, Bool.false_eq_true, if_false]
          cases hxu : x.userId == uid with
          | true =>
            have hxu' : (x.userId == u) = false := by
              simp only [beq_eq_false_iff_ne, ne_eq]
              intro hq
              exact hu (by rw [← hq, beq_iff_eq.mp hxu])
            simp [hxu, hxu']
          | false => simp [hxu]
    | false =>
      simp only [updateSnippetCollection, requireUser, hE, hb, Bool.false_eq_true, if_false,
        Except.ok.injEq, Prod.mk.injEq, Store.mk.injEq] at h
      obtain ⟨hv, hXc, hYs⟩ := h
      intro u
      show defaultCount u s2c ≤ 1
      rw [← hXc, defaultCount_eq_countP, List.countP_map]
      refine le_trans (List.countP_mono_left ?_)
        (by rw [← defaultCount_eq_countP]; exact hinv u)
      intro x hx hpx
      simp only [Function.comp_apply] at hpx
      cases hxid : x.id == ex.id with
      | false =>
        simp only [hxid, Bool.false_eq_true, if_false] at hpx
        exact hpx
      | true =>
        simp only [hxid, if_true] at hpx
        cases hbv : i.isDefault with
        | none =>
          rw [hbv] at hpx
          simpa [applyCollectionUpdate] using hpx
        | some b =>
          have hbf : b = false := by
            cases b with
            | true => rw [hbv] at hb; simp at hb
            | false => rfl
          subst hbf
          rw [hbv] at hpx
          simp [applyCollectionUpdate] at hpx


/-- C1: the single-designated-default invariant — at most one Collection per
    user with `isDefault = true` — is preserved by any completed
    `createSnippetCollection` and any completed `updateSnippetCollection`
    call (when the input sets `isDefault = true` the handler first clears
    every default of the caller and then writes the single target row). -/
theorem defaultInvariant_preserved
    (i₁ : CreateCollectionInput) (i₂ : UpdateCollectionInput) (uid : String)
    (now : Nat) (freshId : String) (s : Store)
    (r₁ : Collection × Store) (r₂ : Option Collection × Store)
    (hnd : (s.collections.map Collection.id).Nodup)
    (hinv : ∀ u, defaultCount u s.collections ≤ 1)
    (h₁ : createSnippetCollection i₁ (some uid) now freshId s = .ok r₁)
    (h₂ : updateSnippetCollection i₂ (some uid) now s = .ok r₂) :
    (∀ u, defaultCount u r₁.2.collections ≤ 1) ∧
    (∀ u, defaultCount u r₂.2.collections ≤ 1) :=
  ⟨createCollection_preserves_defaultCount i₁ uid now freshId s r₁ hinv h₁,
   updateCollection_preserves_defaultCount i₂ uid now s r₂ hnd hinv h₂⟩

/-- C1 witness: the theorem applied to a one-collection store with a
    default-setting create and a default-setting update. -/
theorem defaultInvariant_preserved_witness :
    ((⟨[⟨"col1", "u1", "SQL", none, none, true, 1, 1⟩], []⟩ : Store).collections.map
        Collection.id).Nodup ∧
    (∀ u, defaultCount u (⟨[⟨"col1", "u1", "SQL", none, none, true, 1, 1⟩], []⟩ :
        Store).collections ≤ 1) ∧
    createSnippetCollection ⟨"N", none, none, some true⟩ (some "u1") 5 "col9"
        ⟨[⟨"col1", "u1", "SQL", none, none, true, 1, 1⟩], []⟩ =
      .ok (⟨"col9", "u1", "N", none, none, true, 5, 5⟩,
        ⟨[⟨"col1", "u1", "SQL", none, none, false, 1, 5⟩,
          ⟨"col9", "u1", "N", none, none, true, 5, 5⟩], []⟩) ∧
    updateSnippetCollection ⟨"col1", none, none, none, some true⟩ (some "u1") 5
        ⟨[⟨"col1", "u1", "SQL", none, none, true, 1, 1⟩], []⟩ =
      .ok (some ⟨"col1", "u1", "SQL", none, none, true, 1, 5⟩,
        ⟨[⟨"col1", "u1", "SQL", none, none, true, 1, 5⟩], []⟩) ∧
    (∀ u, defaultCount u ((⟨"col9", "u1", "N", none, none, true, 5, 5⟩,
        (⟨[⟨"col1", "u1", "SQL", none, none, false, 1, 5⟩,
           ⟨"col9", "u1", "N", none, none, true, 5, 5⟩], []⟩ : Store)) :
        Collection × Store).2.collections ≤ 1) ∧
    (∀ u, defaultCount u ((some ⟨"col1", "u1", "SQL", none, none, true, 1, 5⟩,
        (⟨[⟨"col1", "u1", "SQL", none, none, true, 1, 5⟩], []⟩ : Store)) :
        Option Collection × Store).2.collections ≤ 1) :=
  ⟨by decide,
   fun u => le_trans (List.length_filter_le _ _) (by decide),
   by decide,
   by decide,
   (defaultInvariant_preserved ⟨"N", none, none, some true⟩
      ⟨"col1", none, none, none, some true⟩ "u1" 5 "col9"
      ⟨[⟨"col1", "u1", "SQL", none, none, true, 1, 1⟩], []⟩
      (⟨"col9", "u1", "N", none, none, true, 5, 5⟩,
       ⟨[⟨"col1", "u1", "SQL", none, none, false, 1, 5⟩,
         ⟨"col9", "u1", "N", none, none, true, 5, 5⟩], []⟩)
      (some ⟨"col1", "u1", "SQL", none, none, true, 1, 5⟩,
       ⟨[⟨"col1", "u1", "SQL", none, none, true, 1, 5⟩], []⟩)
      (by decide) (fun u => le_trans (List.length_filter_le _ _) (by decide))
      (by decide) (by decide)).1,
   (defaultInvariant_preserved ⟨"N", none, none, some true⟩
      ⟨"col1", none, none, none, some true⟩ "u1" 5 "col9"
      ⟨[⟨"col1", "u1", "SQL", none, none, true, 1, 1⟩], []⟩
      (⟨"col9", "u1", "N", none, none, true, 5, 5⟩,
       ⟨[⟨"col1", "u1", "SQL", none, none, false, 1, 5⟩,
         ⟨"col9", "u1", "N", none, none, true, 5, 5⟩], []⟩)
      (some ⟨"col1", "u1", "SQL", none, none, true, 1, 5⟩,
       ⟨[⟨"col1", "u1", "SQL", none, none, true, 1, 5⟩], []⟩)
      (by decide) (fun u => le_trans (List.length_filter_le _ _) (by decide))
      (by decide) (by decide)).2⟩

end SnippetGen
